import Mathlib

/-!
Verification development for the socket chat relay server (src/server.js).

The server holds chat sessions in process-wide maps (`activeChats`,
`connectedAgents`, `socketOrigins`, `chatLastActivity`, `chatSaveTimers`),
routes customer and agent messages, and persists sessions to a remote HTTP
store with a local file fallback.  Everything below is a direct shallow
embedding of that JavaScript code: JS `Map`s become association lists keyed
by strings, JS truthiness of the optional `agent` field and of optional
string payload fields is modelled explicitly, `Date.now()` values and fresh
short ids are passed in as parameters (the id generator is an external pure
utility), and the asynchronous persistence call is parameterised by the
outcome of the remote request and of the fallback file write.
-/

namespace SocketApp

set_option maxRecDepth 100000

/-- One chat message, as built by the `user_message` and `message_from_agent`
handlers in src/server.js. -/
structure Message where
  id : String
  content : String
  sender : String
  senderName : String
  time : String
deriving Repr, DecidableEq

/-- One in-memory chat session (the objects stored in `activeChats`).
`agent` is `none` until an agent replies; JS can later store the agent
name, including the empty string. -/
structure Chat where
  chatroom_id : String
  userId : String
  userName : String
  userEmail : String
  userPhone : String
  userIp : String
  messages : List Message
  createdAt : String
  socketId : String
  agent : Option String
deriving Repr, DecidableEq

/-- One entry of `connectedAgents`, created by `join_as_agent`. -/
structure AgentInfo where
  agentId : String
  agentName : String
  socketId : String
  origin : Option String
  connectedAt : String
deriving Repr, DecidableEq

/-- JS truthiness of the `chat.agent` field: `undefined`/absent and the
empty string are falsy, every other string is truthy. -/
def agentTruthy : Option String → Bool
  | none => false
  | some s => s != ""

/-- JS `x || d` for an optional string `x`: the default is used when `x`
is `undefined` or the empty string. -/
def jsOr (x : Option String) (d : String) : String :=
  match x with
  | none => d
  | some v => if v = "" then d else v

/-- Lookup in an association list, mirroring `Map.get` (keys are unique in
a JS `Map`; we look up the first matching entry). -/
def getKey? {α : Type} (k : String) : List (String × α) → Option α
  | [] => none
  | (k1, v) :: rest => if k1 = k then some v else getKey? k rest

/-- Overwrite-or-insert, mirroring `Map.set`. -/
def setKey {α : Type} (k : String) (v : α) : List (String × α) → List (String × α)
  | [] => [(k, v)]
  | (k1, v1) :: rest => if k1 = k then (k, v) :: rest else (k1, v1) :: setKey k v rest

/-- Deletion, mirroring `Map.delete`. -/
def delKey {α : Type} (k : String) (m : List (String × α)) : List (String × α) :=
  m.filter (fun p => p.1 != k)

/-- The whole mutable state of the server process. `chatSaveTimers` keeps
only which chat ids currently have an armed inactivity timer (the timer
handle itself carries no further observable information). -/
structure ServerState where
  activeChats : List (String × Chat)
  connectedAgents : List (String × AgentInfo)
  socketOrigins : List (String × Option String)
  chatLastActivity : List (String × Nat)
  chatSaveTimers : List String
deriving Repr, DecidableEq

/-- `AUTOSAVE_INTERVAL` from src/server.js line 60: 5 minutes in ms. -/
def AUTOSAVE_INTERVAL : Nat := 5 * 60 * 1000

/-- `INACTIVITY_SAVE_DELAY` from src/server.js line 61: 2 minutes in ms. -/
def INACTIVITY_SAVE_DELAY : Nat := 2 * 60 * 1000

/-- The default `AGENT_ORIGINS` list (src/server.js lines 18-20). -/
def defaultAgentOrigins : List String := ["https://fantickets.cloud/design/agent-panel"]

/-- JS `s.startsWith(p)`: `p` is a prefix of `s` (stated over the character
lists so that it evaluates by kernel reduction). -/
def strStartsWith (s p : String) : Bool :=
  s.data.take p.data.length == p.data

/-- The agent-origin test `AGENT_ORIGINS.some(p => origin && origin.startsWith(p))`
used at connection time and inside `join_as_agent`. -/
def isAgentOriginOf (agentOrigins : List String) (origin : Option String) : Bool :=
  agentOrigins.any (fun p =>
    match origin with
    | none => false
    | some o => o != "" && strStartsWith o p)

/-- The record shape POSTed to the remote store and written by the file
fallback (`chatData` in `saveChatToDatabase`, src/server.js lines 75-87). -/
structure ChatData where
  chatroom_id : String
  agent_id : Option String
  user_id : String
  user_name : String
  user_email : String
  user_phone : String
  user_ip : String
  socket_id : String
  status : String
  last_message_at : String
  messages : List Message
deriving Repr, DecidableEq

/-- `chatData` as built at the top of `saveChatToDatabase`:
`lastMessage = chat.messages[chat.messages.length - 1]`,
`last_message_at = lastMessage ? lastMessage.time : chat.createdAt`,
`agent_id = chat.agent || null`, `status = chat.agent ? "closed" : "pending"`.
In JS the `messages` field holds a reference to the live array; here it is
the list as of the moment this record is built. -/
def buildChatData (chat : Chat) : ChatData :=
  let lastMessage := chat.messages.getLast?
  let lastMessageAt :=
    match lastMessage with
    | some m => m.time
    | none => chat.createdAt
  { chatroom_id := chat.chatroom_id
    agent_id := if agentTruthy chat.agent then chat.agent else none
    user_id := chat.userId
    user_name := chat.userName
    user_email := chat.userEmail
    user_phone := chat.userPhone
    user_ip := chat.userIp
    socket_id := chat.socketId
    status := if agentTruthy chat.agent then "closed" else "pending"
    last_message_at := lastMessageAt
    messages := chat.messages }

/-- How the remote part of `saveChatToDatabase` can end: `CHAT_API_URL`
unset (the code throws before calling `fetch`), `fetch` rejecting, a
non-2xx response, or success. -/
inductive RemoteOutcome where
  | noApiUrl
  | fetchError
  | badStatus (code : Nat)
  | ok
deriving Repr, DecidableEq

/-- A persistence attempt observable from outside the process: the HTTP
POST of a record, or the fallback file write of a record under a file
name. -/
inductive WriteAction where
  | remoteAttempt (record : ChatData)
  | fileWrite (filename : String) (record : ChatData)
deriving Repr, DecidableEq

/-- The value `saveChatToDatabase` resolves with. -/
structure SaveResult where
  success : Bool
  fallbackFlag : Bool
deriving Repr, DecidableEq

/-- `saveChatToDatabase` (src/server.js lines 68-135) viewed as one
isolated operation (no other event runs during it): build `chatData`,
try the remote POST, on any remote failure attempt the fallback file
write `saved_chats/<chatroom_id>_<Date.now()>.json` of the same record;
resolve `success: false` only when the fallback write also fails; every
error is caught, none escapes. `remote` is the outcome of the remote
attempt and `fallbackOk` whether the file write succeeds. -/
def saveChatToDatabase (chat : Chat) (remote : RemoteOutcome) (fallbackOk : Bool)
    (now : Nat) : SaveResult × List WriteAction :=
  let chatData := buildChatData chat
  let fetchAttempt : List WriteAction :=
    match remote with
    | .noApiUrl => []
    | _ => [.remoteAttempt chatData]
  match remote with
  | .ok => ({ success := true, fallbackFlag := false }, fetchAttempt)
  | _ =>
    let filename := chat.chatroom_id ++ "_" ++ toString now ++ ".json"
    if fallbackOk then
      ({ success := true, fallbackFlag := true }, fetchAttempt ++ [.fileWrite filename chatData])
    else
      ({ success := false, fallbackFlag := false }, fetchAttempt ++ [.fileWrite filename chatData])

/-- Refined model of the fallback file write when other events may run
during the save: in JS `chatData.messages` aliases the live
`chat.messages` array, the remote body `JSON.stringify(chatData)` is
evaluated synchronously before the first `await`, but the fallback body
`JSON.stringify(chatData, null, 2)` is evaluated only after the awaited
`import` and `mkdir` calls, so it reads the message array as of the
fallback write, while all scalar fields keep their trigger-time values. -/
def fallbackRecordLive (chatAtTrigger : Chat) (messagesAtWrite : List Message) : ChatData :=
  { buildChatData chatAtTrigger with messages := messagesAtWrite }

/-- Outbound socket emissions the claims observe. -/
inductive Output where
  | chatCreated (chatId : String)
  | newChatBroadcast (chatId : String)
  | errorMsg (toSocket : String) (text : String)
  | newMessage (chatId : String) (m : Message)
  | agentJoined (chatId : String) (agentName : String)
  | activeChatsSent (toSocket : String) (count : Nat)
  | userInfoUpdated (chatId : String)
  | missedMessages (chatId : String) (msgs : List Message)
  | chatSavedAck (chatId : String) (success : Bool)
  | chatClosed (chatId : String)
  | typingRelay (event : String) (chatId : String)
deriving Repr, DecidableEq

/-- Which branch a handler took. `notFound` is the branch taken when the
referenced chat id is absent from `activeChats`. -/
inductive Outcome where
  | ok
  | notFound
  | unauthorized
deriving Repr, DecidableEq

/-- Result of running one event handler. -/
structure StepResult where
  state : ServerState
  outputs : List Output
  outcome : Outcome
  writes : List WriteAction := []
deriving Repr, DecidableEq

/-- `scheduleAutoSave` (src/server.js lines 137-161): no-op unless the chat
exists and its `agent` field is truthy; otherwise cancel any existing timer
for the id and arm a fresh one. -/
def scheduleAutoSave (chatId : String) (st : ServerState) : ServerState :=
  match getKey? chatId st.activeChats with
  | none => st
  | some chat =>
    if agentTruthy chat.agent then
      { st with chatSaveTimers := chatId :: st.chatSaveTimers.filter (fun c => c != chatId) }
    else
      st

/-- `updateChatActivity` (src/server.js lines 164-167): stamp
`chatLastActivity` to now, then `scheduleAutoSave`. -/
def updateChatActivity (chatId : String) (now : Nat) (st : ServerState) : ServerState :=
  scheduleAutoSave chatId { st with chatLastActivity := setKey chatId now st.chatLastActivity }

/-- The body of the inactivity timer armed by `scheduleAutoSave`
(src/server.js lines 151-158): on expiry, persist only if the chat still
exists, still has at least one message and still has a truthy agent; in
every case drop the timer entry.  Returns the new state and the
persistence attempts performed. -/
def fireAutoSaveTimer (st : ServerState) (chatId : String) (remote : RemoteOutcome)
    (fallbackOk : Bool) (now : Nat) : ServerState × List WriteAction :=
  let writes :=
    match getKey? chatId st.activeChats with
    | some currentChat =>
      if 0 < currentChat.messages.length ∧ agentTruthy currentChat.agent then
        (saveChatToDatabase currentChat remote fallbackOk now).2
      else []
    | none => []
  ({ st with chatSaveTimers := st.chatSaveTimers.filter (fun c => c != chatId) }, writes)

/-- The message object built by the `user_message` handler. -/
def mkUserMessage (msgId content : String) (sender : Option String)
    (senderName timeStr : String) : Message :=
  { id := msgId, content := content, sender := jsOr sender "user"
    senderName := senderName, time := timeStr }

/-- The message object built by the `message_from_agent` handler
(`time: message.time || new Date().toISOString()`). -/
def mkAgentMessage (msgId content agentName : String) (msgTime : Option String)
    (timeStr : String) : Message :=
  { id := msgId, content := content, sender := "agent"
    senderName := agentName, time := jsOr msgTime timeStr }

/-- The `user_join_chat` handler (src/server.js lines 188-225).  `origin`
is the handshake origin captured at connect time (the handler's
`isAgentOrigin` closure variable is computed from it); `freshChatId` is
the id produced by `generateShortId("chat")` and `createdAt` the ISO time
string. -/
def handleUserJoinChat (st : ServerState) (socketId : String) (origin : Option String)
    (agentOrigins : List String) (userId userName : String)
    (userEmail userPhone : Option String) (handshakeAddress : Option String)
    (freshChatId createdAt : String) : StepResult :=
  if isAgentOriginOf agentOrigins origin then
    { state := st
      outputs := [.errorMsg socketId
        "Agent origins cannot create user chats. Please use join_as_agent instead."]
      outcome := .unauthorized }
  else
    let newChat : Chat :=
      { chatroom_id := freshChatId
        userId := userId
        userName := userName
        userEmail := jsOr userEmail ""
        userPhone := jsOr userPhone ""
        userIp := jsOr handshakeAddress "unknown"
        messages := []
        createdAt := createdAt
        socketId := socketId
        agent := none }
    { state := { st with activeChats := setKey freshChatId newChat st.activeChats }
      outputs := [.chatCreated freshChatId, .newChatBroadcast freshChatId]
      outcome := .ok }

/-- The `user_message` handler (src/server.js lines 227-260): look up the
chat (not-found is a no-op), append a customer message, multicast
`new_message`, and only when the chat has a truthy agent run
`updateChatActivity`. -/
def handleUserMessage (st : ServerState) (socketId chatId content : String)
    (sender : Option String) (freshMsgId timeStr : String) (now : Nat) : StepResult :=
  match getKey? chatId st.activeChats with
  | none => { state := st, outputs := [], outcome := .notFound }
  | some chat =>
    let message := mkUserMessage freshMsgId content sender chat.userName timeStr
    let chat1 := { chat with messages := chat.messages ++ [message] }
    let st1 := { st with activeChats := setKey chatId chat1 st.activeChats }
    let st2 := if agentTruthy chat1.agent then updateChatActivity chatId now st1 else st1
    { state := st2, outputs := [.newMessage chatId message], outcome := .ok }

/-- The `join_as_agent` handler (src/server.js lines 278-307): re-validate
the origin recorded at connect time; on failure emit an error and change
nothing; on success register the `AgentInfo` and send the active chat
backlog. -/
def handleJoinAsAgent (st : ServerState) (socketId agentName agentId : String)
    (agentOrigins : List String) (connectedAt : String) : StepResult :=
  let socketOrigin := (getKey? socketId st.socketOrigins).getD none
  if isAgentOriginOf agentOrigins socketOrigin then
    let info : AgentInfo :=
      { agentId := agentId, agentName := agentName, socketId := socketId
        origin := socketOrigin, connectedAt := connectedAt }
    { state := { st with connectedAgents := setKey socketId info st.connectedAgents }
      outputs := [.activeChatsSent socketId st.activeChats.length]
      outcome := .ok }
  else
    { state := st
      outputs := [.errorMsg socketId
        "Unauthorized: Agent connections must come from authorized domains"]
      outcome := .unauthorized }

/-- The `message_from_agent` handler (src/server.js lines 309-349): look up
the chat (not-found is a no-op), append an agent-role message, assign the
agent and emit `agent_joined` when `chat.agent` is falsy, multicast
`new_message`, then always `updateChatActivity`.  Note the handler never
consults `connectedAgents`. -/
def handleMessageFromAgent (st : ServerState) (socketId chatId content : String)
    (msgTime : Option String) (agentName freshMsgId timeStr : String) (now : Nat) : StepResult :=
  match getKey? chatId st.activeChats with
  | none => { state := st, outputs := [], outcome := .notFound }
  | some chat =>
    let messageData := mkAgentMessage freshMsgId content agentName msgTime timeStr
    let chat1 := { chat with messages := chat.messages ++ [messageData] }
    let chat2 := if agentTruthy chat1.agent then chat1 else { chat1 with agent := some agentName }
    let joinOuts : List Output :=
      if agentTruthy chat1.agent then [] else [.agentJoined chatId agentName]
    let st1 := { st with activeChats := setKey chatId chat2 st.activeChats }
    let st2 := updateChatActivity chatId now st1
    { state := st2
      outputs := joinOuts ++ [.newMessage chatId messageData]
      outcome := .ok }

/-- The `update_user_info` handler (src/server.js lines 367-388):
`field || chat.field` partial update, broadcast when the chat exists,
silently skip otherwise. -/
def handleUpdateUserInfo (st : ServerState) (chatId : String)
    (userName userEmail userPhone : Option String) : StepResult :=
  match getKey? chatId st.activeChats with
  | none => { state := st, outputs := [], outcome := .notFound }
  | some chat =>
    let chat1 := { chat with
      userName := jsOr userName chat.userName
      userEmail := jsOr userEmail chat.userEmail
      userPhone := jsOr userPhone chat.userPhone }
    { state := { st with activeChats := setKey chatId chat1 st.activeChats }
      outputs := [.userInfoUpdated chatId]
      outcome := .ok }

/-- `messages.findIndex(m => m.id === lastMessageId)` as an optional
index. -/
def findMsgIdx (lastMessageId : String) : List Message → Option Nat
  | [] => none
  | m :: rest =>
    if m.id = lastMessageId then some 0
    else (findMsgIdx lastMessageId rest).map (fun i => i + 1)

/-- The replay computation of `request_missed_messages` (src/server.js
lines 397-398): `lastIndex >= 0 ? messages.slice(lastIndex + 1) : []`. -/
def missedMessagesOf (messages : List Message) (lastMessageId : String) : List Message :=
  match findMsgIdx lastMessageId messages with
  | some lastIndex => messages.drop (lastIndex + 1)
  | none => []

/-- The `request_missed_messages` handler (src/server.js lines 390-407). -/
def handleRequestMissedMessages (st : ServerState) (socketId chatId lastMessageId : String) :
    StepResult :=
  match getKey? chatId st.activeChats with
  | none => { state := st, outputs := [], outcome := .notFound }
  | some chat =>
    { state := st
      outputs := [.missedMessages chatId (missedMessagesOf chat.messages lastMessageId)]
      outcome := .ok }

/-- The `save_chat` handler (src/server.js lines 409-425): manual save,
regardless of agent assignment or timers; unknown ids get a failed ack. -/
def handleSaveChat (st : ServerState) (socketId chatId : String) (remote : RemoteOutcome)
    (fallbackOk : Bool) (now : Nat) : StepResult :=
  match getKey? chatId st.activeChats with
  | none =>
    { state := st, outputs := [.chatSavedAck chatId false], outcome := .notFound }
  | some chat =>
    let r := saveChatToDatabase chat remote fallbackOk now
    { state := st
      outputs := [.chatSavedAck chatId r.1.success]
      outcome := .ok
      writes := r.2 }

/-- The `close_chat` handler (src/server.js lines 427-452): save, cancel
the timer, delete the chat and its activity stamp, notify the room;
unknown ids do nothing. -/
def handleCloseChat (st : ServerState) (chatId : String) (remote : RemoteOutcome)
    (fallbackOk : Bool) (now : Nat) : StepResult :=
  match getKey? chatId st.activeChats with
  | none => { state := st, outputs := [], outcome := .notFound }
  | some chat =>
    let r := saveChatToDatabase chat remote fallbackOk now
    { state := { st with
        activeChats := delKey chatId st.activeChats
        chatLastActivity := delKey chatId st.chatLastActivity
        chatSaveTimers := st.chatSaveTimers.filter (fun c => c != chatId) }
      outputs := [.chatClosed chatId]
      outcome := .ok
      writes := r.2 }

/-- A typing relay handler (src/server.js lines 262-276 and 351-365):
stateless re-multicast, no registry access at all. -/
def handleTypingRelay (st : ServerState) (event chatId : String) : StepResult :=
  { state := st, outputs := [.typingRelay event chatId], outcome := .ok }

/-- Inbound socket events of the handlers embedded above.  Fresh ids and
time values produced inside a handler ride on the event. -/
inductive Event where
  | userJoinChat (socketId : String) (origin : Option String) (userId userName : String)
      (userEmail userPhone : Option String) (handshakeAddress : Option String)
      (freshChatId createdAt : String)
  | userMessage (socketId chatId content : String) (sender : Option String)
      (freshMsgId timeStr : String)
  | userTyping (socketId chatId : String)
  | userStopTyping (socketId chatId : String)
  | joinAsAgent (socketId agentName agentId connectedAt : String)
  | messageFromAgent (socketId chatId content : String) (msgTime : Option String)
      (agentName freshMsgId timeStr : String)
  | agentTyping (socketId chatId : String)
  | agentStopTyping (socketId chatId : String)
  | updateUserInfo (chatId : String) (userName userEmail userPhone : Option String)
  | requestMissedMessages (socketId chatId lastMessageId : String)
  | saveChat (socketId chatId : String) (remote : RemoteOutcome) (fallbackOk : Bool)
  | closeChat (chatId : String) (remote : RemoteOutcome) (fallbackOk : Bool)
deriving Repr, DecidableEq

/-- Dispatch one inbound event to its handler. -/
def step (agentOrigins : List String) (now : Nat) (st : ServerState) : Event → StepResult
  | .userJoinChat sock origin uid uname ue up addr fcid cAt =>
    handleUserJoinChat st sock origin agentOrigins uid uname ue up addr fcid cAt
  | .userMessage sock cid content sender mid ts =>
    handleUserMessage st sock cid content sender mid ts now
  | .userTyping _ cid => handleTypingRelay st "user_typing" cid
  | .userStopTyping _ cid => handleTypingRelay st "user_stop_typing" cid
  | .joinAsAgent sock an aid cAt => handleJoinAsAgent st sock an aid agentOrigins cAt
  | .messageFromAgent sock cid content mt an mid ts =>
    handleMessageFromAgent st sock cid content mt an mid ts now
  | .agentTyping _ cid => handleTypingRelay st "agent_typing" cid
  | .agentStopTyping _ cid => handleTypingRelay st "agent_stop_typing" cid
  | .updateUserInfo cid un ue up => handleUpdateUserInfo st cid un ue up
  | .requestMissedMessages sock cid lastId => handleRequestMissedMessages st sock cid lastId
  | .saveChat sock cid remote fb => handleSaveChat st sock cid remote fb now
  | .closeChat cid remote fb => handleCloseChat st cid remote fb now

/-- The session id an event refers to, when it refers to one. -/
def eventChatId : Event → Option String
  | .userJoinChat .. => none
  | .userMessage _ cid _ _ _ _ => some cid
  | .userTyping _ cid => some cid
  | .userStopTyping _ cid => some cid
  | .joinAsAgent .. => none
  | .messageFromAgent _ cid _ _ _ _ _ => some cid
  | .agentTyping _ cid => some cid
  | .agentStopTyping _ cid => some cid
  | .updateUserInfo cid _ _ _ => some cid
  | .requestMissedMessages _ cid _ => some cid
  | .saveChat _ cid _ _ => some cid
  | .closeChat cid _ _ => some cid

/-- Whether the handler of the event looks the session up in the registry
(the typing relays re-multicast without any lookup). -/
def consultsRegistry : Event → Bool
  | .userMessage .. => true
  | .messageFromAgent .. => true
  | .updateUserInfo .. => true
  | .requestMissedMessages .. => true
  | .saveChat .. => true
  | .closeChat .. => true
  | _ => false

/-- The per-chat save condition of the periodic sweep (src/server.js lines
567-581): skip chats with a falsy agent; otherwise save when the chat has
messages and `now - (chatLastActivity.get(chatId) || 0)` exceeds
`AUTOSAVE_INTERVAL`. -/
def sweepSaves (now : Nat) (chat : Chat) (lastActivity : Option Nat) : Bool :=
  if agentTruthy chat.agent = false then false
  else
    let lastAct := lastActivity.getD 0
    decide (0 < chat.messages.length) &&
      decide ((AUTOSAVE_INTERVAL : Int) < (now : Int) - (lastAct : Int))

/-- The loop of the periodic auto-save `setInterval` (src/server.js lines
561-587): walk the chat entries, persist the ones `sweepSaves` selects
and stamp their `chatLastActivity` to `now`.  Returns the updated
activity map and the ids persisted. -/
def sweepLoop (now : Nat) : List (String × Chat) → List (String × Nat) →
    List (String × Nat) × List String
  | [], la => (la, [])
  | (cid, chat) :: rest, la =>
    if sweepSaves now chat (getKey? cid la) then
      let r := sweepLoop now rest (setKey cid now la)
      (r.1, cid :: r.2)
    else
      sweepLoop now rest la

/-- The periodic sweep over the whole server state. -/
def periodicSweep (now : Nat) (st : ServerState) : ServerState × List String :=
  let r := sweepLoop now st.activeChats st.chatLastActivity
  ({ st with chatLastActivity := r.1 }, r.2)

/-- The message list of a session in a state (empty when absent). -/
def msgsOf (st : ServerState) (chatId : String) : List Message :=
  match getKey? chatId st.activeChats with
  | some c => c.messages
  | none => []

/-- The agent field of a session in a state (`none` when absent). -/
def agentOf (st : ServerState) (chatId : String) : Option String :=
  match getKey? chatId st.activeChats with
  | some c => c.agent
  | none => none

/-- Sample message data for concrete runs. -/
def exM1 : Message :=
  { id := "m1", content := "hello", sender := "user", senderName := "Alice", time := "t1" }

def exM2 : Message :=
  { id := "m2", content := "hi there", sender := "agent", senderName := "Bob", time := "t2" }

def exM3 : Message :=
  { id := "m3", content := "thanks", sender := "user", senderName := "Alice", time := "t3" }

/-- A sample session with the given messages and agent field. -/
def exChat (msgs : List Message) (ag : Option String) : Chat :=
  { chatroom_id := "chat1", userId := "u1", userName := "Alice", userEmail := ""
    userPhone := "", userIp := "127.0.0.1", messages := msgs, createdAt := "t0"
    socketId := "s1", agent := ag }

/-- A sample server state holding only `exChat msgs ag` under id "chat1";
the customer connection "s1" happens to have an agent-eligible recorded
origin (used by the gatekeeper runs). -/
def exState (msgs : List Message) (ag : Option String) : ServerState :=
  { activeChats := [("chat1", exChat msgs ag)]
    connectedAgents := []
    socketOrigins := [("s1", some "https://fantickets.cloud/design/agent-panel")]
    chatLastActivity := []
    chatSaveTimers := [] }

/-- First agent send of the C5 run: agent name is the empty string, which
JS stores but keeps falsy. -/
def c5Send1 : StepResult :=
  handleMessageFromAgent (exState [] none) "sA" "chat1" "hi" none "" "mA" "tA" 1

/-- Second agent send of the C5 run, by a different name. -/
def c5Send2 : StepResult :=
  handleMessageFromAgent c5Send1.state "sB" "chat1" "yo" none "Bob" "mB" "tB" 2

/-- The session on which the C2 save is triggered. -/
def c2TriggerChat : Chat := exChat [exM1] (some "Bob")

/-- A customer message processed during the suspension window of the save
(between the failed remote attempt and the fallback file write). -/
def c2DuringSave : StepResult :=
  handleUserMessage (exState [exM1] (some "Bob")) "s1" "chat1" "are you there" none "m2x" "t2x" 7

/-- The C3 sweep scenario: agent-assigned, one message, last activity at
time 0, sweep running at the 3-minute mark. -/
def c3Chat : Chat := exChat [exM1] (some "Bob")

def c3Now : Nat := 3 * 60 * 1000

theorem getKey?_setKey_self {α : Type} (k : String) (v : α) (m : List (String × α)) :
    getKey? k (setKey k v m) = some v := by
  induction m with
  | nil => simp [setKey, getKey?]
  | cons p rest ih =>
    obtain ⟨k1, v1⟩ := p
    by_cases h : k1 = k
    · simp [setKey, h, getKey?]
    · simp [setKey, h, getKey?, ih]

theorem getKey?_setKey_ne {α : Type} {k q : String} (v : α) (m : List (String × α))
    (h : q ≠ k) : getKey? q (setKey k v m) = getKey? q m := by
  induction m with
  | nil =>
    simp only [setKey, getKey?]
    rw [if_neg (Ne.symm h)]
  | cons p rest ih =>
    obtain ⟨k1, v1⟩ := p
    by_cases h1 : k1 = k
    · subst h1
      simp only [setKey, if_pos rfl, getKey?]
      rw [if_neg (Ne.symm h), if_neg (Ne.symm h)]
    · simp only [setKey, if_neg h1, getKey?]
      by_cases h2 : k1 = q <;> simp [h2, ih]

theorem getKey?_eq_some_mem {α : Type} {k : String} {v : α} {m : List (String × α)}
    (h : getKey? k m = some v) : (k, v) ∈ m := by
  induction m with
  | nil => simp [getKey?] at h
  | cons p rest ih =>
    obtain ⟨k1, v1⟩ := p
    simp only [getKey?] at h
    by_cases hk : k1 = k
    · subst hk
      rw [if_pos rfl] at h
      rw [Option.some.injEq] at h
      subst h
      exact List.mem_cons_self _ _
    · exact List.mem_cons_of_mem _ (ih (by simpa [hk] using h))

theorem scheduleAutoSave_activeChats (cid : String) (st : ServerState) :
    (scheduleAutoSave cid st).activeChats = st.activeChats := by
  unfold scheduleAutoSave
  cases getKey? cid st.activeChats with
  | none => rfl
  | some chat =>
    by_cases h : agentTruthy chat.agent <;> simp [h]

theorem scheduleAutoSave_connectedAgents (cid : String) (st : ServerState) :
    (scheduleAutoSave cid st).connectedAgents = st.connectedAgents := by
  unfold scheduleAutoSave
  cases getKey? cid st.activeChats with
  | none => rfl
  | some chat =>
    by_cases h : agentTruthy chat.agent <;> simp [h]

theorem scheduleAutoSave_chatLastActivity (cid : String) (st : ServerState) :
    (scheduleAutoSave cid st).chatLastActivity = st.chatLastActivity := by
  unfold scheduleAutoSave
  cases getKey? cid st.activeChats with
  | none => rfl
  | some chat =>
    by_cases h : agentTruthy chat.agent <;> simp [h]

theorem updateChatActivity_activeChats (cid : String) (now : Nat) (st : ServerState) :
    (updateChatActivity cid now st).activeChats = st.activeChats := by
  unfold updateChatActivity
  rw [scheduleAutoSave_activeChats]

theorem updateChatActivity_connectedAgents (cid : String) (now : Nat) (st : ServerState) :
    (updateChatActivity cid now st).connectedAgents = st.connectedAgents := by
  unfold updateChatActivity
  rw [scheduleAutoSave_connectedAgents]

theorem handleUserMessage_msgs (st : ServerState) (sock cid content : String)
    (sender : Option String) (mid ts : String) (now : Nat) (chat : Chat)
    (hc : getKey? cid st.activeChats = some chat) :
    msgsOf (handleUserMessage st sock cid content sender mid ts now).state cid =
      chat.messages ++ [mkUserMessage mid content sender chat.userName ts] := by
  unfold handleUserMessage
  rw [hc]
  by_cases h : agentTruthy chat.agent <;>
    simp [h, msgsOf, updateChatActivity_activeChats, getKey?_setKey_self]

theorem handleMessageFromAgent_msgs (st : ServerState) (sock cid content : String)
    (mt : Option String) (an mid ts : String) (now : Nat) (chat : Chat)
    (hc : getKey? cid st.activeChats = some chat) :
    msgsOf (handleMessageFromAgent st sock cid content mt an mid ts now).state cid =
      chat.messages ++ [mkAgentMessage mid content an mt ts] := by
  unfold handleMessageFromAgent
  rw [hc]
  by_cases h : agentTruthy chat.agent <;>
    simp [h, msgsOf, updateChatActivity_activeChats, getKey?_setKey_self]

theorem sweepLoop_saved_sub (now : Nat) (entries : List (String × Chat))
    (la : List (String × Nat)) (cid : String)
    (h : cid ∈ (sweepLoop now entries la).2) : cid ∈ entries.map Prod.fst := by
  induction entries generalizing la with
  | nil => simp [sweepLoop] at h
  | cons p rest ih =>
    obtain ⟨k, c⟩ := p
    simp only [sweepLoop] at h
    by_cases hs : sweepSaves now c (getKey? k la) = true
    · rw [if_pos hs] at h
      rcases List.mem_cons.mp h with h1 | h1
      · simp [h1]
      · exact List.mem_cons_of_mem _ (ih _ h1)
    · rw [if_neg hs] at h
      exact List.mem_cons_of_mem _ (ih _ h)

theorem sweepLoop_la_not_mem (now : Nat) (entries : List (String × Chat))
    (la : List (String × Nat)) (cid : String) (h : cid ∉ entries.map Prod.fst) :
    getKey? cid (sweepLoop now entries la).1 = getKey? cid la := by
  induction entries generalizing la with
  | nil => rfl
  | cons p rest ih =>
    obtain ⟨k, c⟩ := p
    have hk : k ≠ cid := fun hh => h (by simp [hh])
    have hrest : cid ∉ rest.map Prod.fst := fun hh => h (by simp [hh])
    simp only [sweepLoop]
    by_cases hs : sweepSaves now c (getKey? k la) = true
    · rw [if_pos hs, ih _ hrest, getKey?_setKey_ne _ _ (fun hh => hk hh.symm)]
    · rw [if_neg hs]
      exact ih _ hrest

theorem sweepLoop_saved_iff (now : Nat) (entries : List (String × Chat))
    (la : List (String × Nat)) (hnd : (entries.map Prod.fst).Nodup)
    (cid : String) (chat : Chat) (hmem : (cid, chat) ∈ entries) :
    cid ∈ (sweepLoop now entries la).2 ↔ sweepSaves now chat (getKey? cid la) = true := by
  induction entries generalizing la with
  | nil => simp at hmem
  | cons p rest ih =>
    obtain ⟨k, c⟩ := p
    rw [List.map_cons] at hnd
    have hnd1 : k ∉ rest.map Prod.fst := (List.nodup_cons.mp hnd).1
    have hnd2 : (rest.map Prod.fst).Nodup := (List.nodup_cons.mp hnd).2
    rcases List.mem_cons.mp hmem with heq | hmemr
    · have hk : cid = k := congrArg Prod.fst heq
      have hchat : chat = c := congrArg Prod.snd heq
      rw [← hk] at hnd1
      rw [← hk, ← hchat]
      simp only [sweepLoop]
      by_cases hs : sweepSaves now chat (getKey? cid la) = true
      · rw [if_pos hs]
        simp [hs]
      · rw [if_neg hs]
        exact iff_of_false (fun hin => hnd1 (sweepLoop_saved_sub now rest la cid hin)) hs
    · have hcidr : cid ∈ rest.map Prod.fst := List.mem_map.mpr ⟨(cid, chat), hmemr, rfl⟩
      have hk : k ≠ cid := fun hh => hnd1 (hh ▸ hcidr)
      simp only [sweepLoop]
      by_cases hs : sweepSaves now c (getKey? k la) = true
      · rw [if_pos hs]
        simp only [List.mem_cons]
        rw [ih (setKey k now la) hnd2 hmemr, getKey?_setKey_ne _ _ (Ne.symm hk)]
        simp [Ne.symm hk]
      · rw [if_neg hs]
        exact ih la hnd2 hmemr

theorem sweepLoop_stamped (now : Nat) (entries : List (String × Chat))
    (la : List (String × Nat)) (hnd : (entries.map Prod.fst).Nodup)
    (cid : String) (h : cid ∈ (sweepLoop now entries la).2) :
    getKey? cid (sweepLoop now entries la).1 = some now := by
  induction entries generalizing la with
  | nil => simp [sweepLoop] at h
  | cons p rest ih =>
    obtain ⟨k, c⟩ := p
    rw [List.map_cons] at hnd
    have hnd1 : k ∉ rest.map Prod.fst := (List.nodup_cons.mp hnd).1
    have hnd2 : (rest.map Prod.fst).Nodup := (List.nodup_cons.mp hnd).2
    simp only [sweepLoop] at h ⊢
    by_cases hs : sweepSaves now c (getKey? k la) = true
    · rw [if_pos hs] at h ⊢
      rcases List.mem_cons.mp h with h1 | h1
      · subst h1
        rw [sweepLoop_la_not_mem now rest _ cid hnd1, getKey?_setKey_self]
      · exact ih (setKey k now la) hnd2 h1
    · rw [if_neg hs] at h ⊢
      exact ih la hnd2 h

theorem findMsgIdx_of_not_mem (lastId : String) (l : List Message)
    (h : ∀ x ∈ l, x.id ≠ lastId) : findMsgIdx lastId l = none := by
  induction l with
  | nil => rfl
  | cons m rest ih =>
    have hm : m.id ≠ lastId := h m (List.mem_cons_self _ _)
    simp [findMsgIdx, hm, ih (fun x hx => h x (List.mem_cons_of_mem _ hx))]

theorem findMsgIdx_append (lastId : String) (pre post : List Message) (m : Message)
    (hm : m.id = lastId) (hpre : ∀ x ∈ pre, x.id ≠ lastId) :
    findMsgIdx lastId (pre ++ m :: post) = some pre.length := by
  induction pre with
  | nil => simp [findMsgIdx, hm]
  | cons a rest ih =>
    have ha : a.id ≠ lastId := hpre a (List.mem_cons_self _ _)
    simp [findMsgIdx, ha, ih (fun x hx => hpre x (List.mem_cons_of_mem _ hx))]

theorem missedMessagesOf_after (lastId : String) (pre post : List Message) (m : Message)
    (hm : m.id = lastId) (hpre : ∀ x ∈ pre, x.id ≠ lastId) :
    missedMessagesOf (pre ++ m :: post) lastId = post := by
  rw [missedMessagesOf, findMsgIdx_append lastId pre post m hm hpre]
  show List.drop (pre.length + 1) (pre ++ m :: post) = post
  have h2 : pre ++ m :: post = (pre ++ [m]) ++ post := by simp
  have h3 : pre.length + 1 = (pre ++ [m]).length := by simp
  rw [h2, h3, List.drop_left]

theorem missedMessagesOf_not_mem (lastId : String) (l : List Message)
    (h : ∀ x ∈ l, x.id ≠ lastId) : missedMessagesOf l lastId = [] := by
  rw [missedMessagesOf, findMsgIdx_of_not_mem lastId l h]

/-- C10: in every persisted record, `last_message_at` equals the timestamp
of the final message of the session's sequence when the sequence is
non-empty, and the session's creation timestamp when it is empty. -/
theorem C10_last_message_at (chat : Chat) (ms : List Message) (m : Message) :
    (chat.messages = ms ++ [m] → (buildChatData chat).last_message_at = m.time) ∧
    (chat.messages = [] → (buildChatData chat).last_message_at = chat.createdAt) := by
  constructor
  · intro h
    simp [buildChatData, h, List.getLast?_concat]
  · intro h
    simp [buildChatData, h]

/-- Witness for C10: a concrete chat ending in exM2, and a concrete empty
chat. -/
theorem C10_last_message_at_witness :
    ((exChat [exM1, exM2] (some "Bob")).messages = [exM1] ++ [exM2] ∧
      (buildChatData (exChat [exM1, exM2] (some "Bob"))).last_message_at = exM2.time) ∧
    ((exChat [] none).messages = [] ∧
      (buildChatData (exChat [] none)).last_message_at = (exChat [] none).createdAt) :=
  ⟨⟨rfl, (C10_last_message_at (exChat [exM1, exM2] (some "Bob")) [exM1] exM2).1 rfl⟩,
   ⟨rfl, (C10_last_message_at (exChat [] none) [] exM1).2 rfl⟩⟩

/-- C8: missed-message replay. The handler returns exactly
`missedMessagesOf chat.messages lastId`; for a sequence `pre ++ m :: post`
where `m` is the first message carrying `lastId`, that is exactly `post`
(the messages strictly after the id in sequence order); for an id not
present in the sequence it is the empty list. -/
theorem C8_missed_replay (st : ServerState) (sock cid lastId : String) (chat : Chat)
    (pre post : List Message) (m : Message)
    (hc : getKey? cid st.activeChats = some chat) :
    (handleRequestMissedMessages st sock cid lastId).outputs =
      [.missedMessages cid (missedMessagesOf chat.messages lastId)] ∧
    (chat.messages = pre ++ m :: post → m.id = lastId → (∀ x ∈ pre, x.id ≠ lastId) →
      missedMessagesOf chat.messages lastId = post) ∧
    ((∀ x ∈ chat.messages, x.id ≠ lastId) → missedMessagesOf chat.messages lastId = []) := by
  refine ⟨?_, ?_, ?_⟩
  · unfold handleRequestMissedMessages
    rw [hc]
  · intro hm hid hpre
    rw [hm]
    exact missedMessagesOf_after lastId pre post m hid hpre
  · exact missedMessagesOf_not_mem lastId chat.messages

/-- Witness for C8: for messages [m1, m2, m3] and lastMessageId = "m1" the
replay is [m2, m3]; for the absent id "zz" it is empty. -/
theorem C8_missed_replay_witness :
    (getKey? "chat1" (exState [exM1, exM2, exM3] (some "Bob")).activeChats =
      some (exChat [exM1, exM2, exM3] (some "Bob")) ∧
      missedMessagesOf [exM1, exM2, exM3] "m1" = [exM2, exM3]) ∧
    missedMessagesOf [exM1, exM2, exM3] "zz" = [] := by
  refine ⟨⟨by decide, ?_⟩, ?_⟩
  · exact (C8_missed_replay (exState [exM1, exM2, exM3] (some "Bob")) "s1" "chat1" "m1"
      (exChat [exM1, exM2, exM3] (some "Bob")) [] [exM2, exM3] exM1
      (by decide)).2.1 rfl (by decide) (by simp)
  · exact (C8_missed_replay (exState [exM1, exM2, exM3] (some "Bob")) "s1" "chat1" "zz"
      (exChat [exM1, exM2, exM3] (some "Bob")) [] [] exM1
      (by decide)).2.2 (by decide)

/-- C6: every persist operation tries the remote store first (any remote
attempt is the first write action and carries the snapshot); on any remote
failure — missing configuration, network error, or non-success response —
the very same snapshot is written to the fallback file named
`<chatroom_id>_<Date.now()>.json`; the resolved value reports failure
exactly when the remote failed and the fallback write failed too (every
error is caught inside the function, so no failure is fatal). -/
theorem C6_save_cascade (chat : Chat) (remote : RemoteOutcome) (fb : Bool) (now : Nat) :
    ((∃ f r, WriteAction.fileWrite f r ∈ (saveChatToDatabase chat remote fb now).2) ↔
      remote ≠ .ok) ∧
    (∀ f r, WriteAction.fileWrite f r ∈ (saveChatToDatabase chat remote fb now).2 →
      f = chat.chatroom_id ++ "_" ++ toString now ++ ".json" ∧ r = buildChatData chat) ∧
    ((saveChatToDatabase chat remote fb now).1.success = false ↔
      (remote ≠ .ok ∧ fb = false)) ∧
    (∀ r, WriteAction.remoteAttempt r ∈ (saveChatToDatabase chat remote fb now).2 →
      (saveChatToDatabase chat remote fb now).2.head? = some (.remoteAttempt r) ∧
        r = buildChatData chat) := by
  cases remote <;> cases fb <;> simp [saveChatToDatabase]

/-- Witness for C6: a concrete failed remote write followed by a successful
fallback write of the same snapshot. -/
theorem C6_save_cascade_witness :
    ((∃ f r, WriteAction.fileWrite f r ∈
        (saveChatToDatabase (exChat [exM1] (some "Bob")) .fetchError true 42).2) ↔
      RemoteOutcome.fetchError ≠ RemoteOutcome.ok) ∧
    (∀ f r, WriteAction.fileWrite f r ∈
        (saveChatToDatabase (exChat [exM1] (some "Bob")) .fetchError true 42).2 →
      f = (exChat [exM1] (some "Bob")).chatroom_id ++ "_" ++ toString 42 ++ ".json" ∧
        r = buildChatData (exChat [exM1] (some "Bob"))) ∧
    ((saveChatToDatabase (exChat [exM1] (some "Bob")) .fetchError true 42).1.success = false ↔
      (RemoteOutcome.fetchError ≠ RemoteOutcome.ok ∧ true = false)) ∧
    (∀ r, WriteAction.remoteAttempt r ∈
        (saveChatToDatabase (exChat [exM1] (some "Bob")) .fetchError true 42).2 →
      (saveChatToDatabase (exChat [exM1] (some "Bob")) .fetchError true 42).2.head? =
          some (.remoteAttempt r) ∧
        r = buildChatData (exChat [exM1] (some "Bob"))) :=
  C6_save_cascade (exChat [exM1] (some "Bob")) .fetchError true 42

/-- C7: any inbound event that references a session id absent from the
registry leaves the entire server state unchanged (so in particular no
session is ever created implicitly), and every handler that consults the
registry takes its not-found branch.  (The typing relays re-multicast
without any registry lookup, so they carry no not-found outcome; they too
mutate nothing.) -/
theorem C7_unknown_session (ao : List String) (now : Nat) (st : ServerState) (e : Event)
    (cid : String) (h1 : eventChatId e = some cid)
    (h2 : getKey? cid st.activeChats = none) :
    (step ao now st e).state = st ∧
    (consultsRegistry e = true → (step ao now st e).outcome = .notFound) := by
  cases e <;>
    simp_all [step, eventChatId, consultsRegistry, handleUserMessage,
      handleMessageFromAgent, handleUpdateUserInfo, handleRequestMissedMessages,
      handleSaveChat, handleCloseChat, handleTypingRelay]

/-- Witness for C7: a user_message naming an unknown session id against the
concrete empty-registry-entry state. -/
theorem C7_unknown_session_witness :
    (eventChatId (Event.userMessage "s1" "ghost" "x" none "m9" "t9") = some "ghost" ∧
      getKey? "ghost" (exState [] none).activeChats = none) ∧
    ((step defaultAgentOrigins 0 (exState [] none)
        (Event.userMessage "s1" "ghost" "x" none "m9" "t9")).state = exState [] none ∧
      (consultsRegistry (Event.userMessage "s1" "ghost" "x" none "m9" "t9") = true →
        (step defaultAgentOrigins 0 (exState [] none)
          (Event.userMessage "s1" "ghost" "x" none "m9" "t9")).outcome = .notFound)) :=
  ⟨⟨rfl, by decide⟩,
   C7_unknown_session defaultAgentOrigins 0 (exState [] none)
     (Event.userMessage "s1" "ghost" "x" none "m9" "t9") "ghost" rfl (by decide)⟩

/-- C9: a session whose agent field is unset is never auto-saved: a
customer send to it updates no activity stamp and arms no timer, the
per-session inactivity timer body persists nothing for it, and the
periodic sweep never selects it; the manual-save and close handlers do
still persist it, with a snapshot status of "pending". -/
theorem C9_unassigned_never_autosaved (st : ServerState) (cid : String) (chat : Chat)
    (sock content mid ts : String) (sender : Option String) (now : Nat)
    (remote : RemoteOutcome) (fb : Bool)
    (hc : getKey? cid st.activeChats = some chat) (ha : chat.agent = none)
    (hnd : (st.activeChats.map Prod.fst).Nodup) :
    (handleUserMessage st sock cid content sender mid ts now).state.chatLastActivity =
      st.chatLastActivity ∧
    (handleUserMessage st sock cid content sender mid ts now).state.chatSaveTimers =
      st.chatSaveTimers ∧
    (fireAutoSaveTimer st cid remote fb now).2 = [] ∧
    cid ∉ (periodicSweep now st).2 ∧
    (handleSaveChat st sock cid remote fb now).writes ≠ [] ∧
    (handleCloseChat st cid remote fb now).writes ≠ [] ∧
    (buildChatData chat).status = "pending" := by
  have hfalsy : agentTruthy chat.agent = false := by rw [ha]; rfl
  refine ⟨?_, ?_, ?_, ?_, ?_, ?_, ?_⟩
  · unfold handleUserMessage
    rw [hc]
    simp [hfalsy]
  · unfold handleUserMessage
    rw [hc]
    simp [hfalsy]
  · unfold fireAutoSaveTimer
    rw [hc]
    simp [hfalsy]
  · intro hin
    have hmem := getKey?_eq_some_mem hc
    have := (sweepLoop_saved_iff now st.activeChats st.chatLastActivity hnd cid chat hmem).mp hin
    rw [sweepSaves, hfalsy] at this
    simp at this
  · unfold handleSaveChat
    rw [hc]
    cases remote <;> cases fb <;> simp [saveChatToDatabase]
  · unfold handleCloseChat
    rw [hc]
    cases remote <;> cases fb <;> simp [saveChatToDatabase]
  · rw [buildChatData]
    simp [hfalsy]

/-- Witness for C9 at the concrete unassigned one-message session. -/
theorem C9_unassigned_never_autosaved_witness :
    (getKey? "chat1" (exState [exM1] none).activeChats = some (exChat [exM1] none) ∧
      (exChat [exM1] none).agent = none ∧
      ((exState [exM1] none).activeChats.map Prod.fst).Nodup) ∧
    ((handleUserMessage (exState [exM1] none) "s1" "chat1" "ping" none "m8" "t8" 9).state.chatLastActivity =
        (exState [exM1] none).chatLastActivity ∧
      (handleUserMessage (exState [exM1] none) "s1" "chat1" "ping" none "m8" "t8" 9).state.chatSaveTimers =
        (exState [exM1] none).chatSaveTimers ∧
      (fireAutoSaveTimer (exState [exM1] none) "chat1" .noApiUrl true 9).2 = [] ∧
      "chat1" ∉ (periodicSweep 9 (exState [exM1] none)).2 ∧
      (handleSaveChat (exState [exM1] none) "s1" "chat1" .noApiUrl true 9).writes ≠ [] ∧
      (handleCloseChat (exState [exM1] none) "chat1" .noApiUrl true 9).writes ≠ [] ∧
      (buildChatData (exChat [exM1] none)).status = "pending") :=
  ⟨⟨by decide, rfl, by decide⟩,
   C9_unassigned_never_autosaved (exState [exM1] none) "chat1" (exChat [exM1] none)
     "s1" "ping" "m8" "t8" none 9 .noApiUrl true (by decide) rfl (by decide)⟩

/-- C1 counterexample: a connection that is NOT registered in
connectedAgents (the map is empty) sends message_from_agent for an
existing session and the event is processed in full — the handler takes
its ok branch, appends an agent-role message to the session and multicasts
it.  This refutes the claim that the event is processed only for a
registered AgentConnection. -/
theorem C1_unregistered_sender_processed_cx :
    getKey? "s9" (exState [] none).connectedAgents = none ∧
    (handleMessageFromAgent (exState [] none) "s9" "chat1" "pwnd" none "Mallory" "m7" "t7" 5).outcome =
      .ok ∧
    msgsOf (handleMessageFromAgent (exState [] none) "s9" "chat1" "pwnd" none "Mallory" "m7" "t7" 5).state
        "chat1" =
      [mkAgentMessage "m7" "pwnd" "Mallory" none "t7"] ∧
    Output.newMessage "chat1" (mkAgentMessage "m7" "pwnd" "Mallory" none "t7") ∈
      (handleMessageFromAgent (exState [] none) "s9" "chat1" "pwnd" none "Mallory" "m7" "t7" 5).outputs := by
  decide

/-- C1 amended: message_from_agent on an existing session is always
processed (message appended, new_message multicast, ok branch), entirely
independent of the connectedAgents registry — the handler neither reads
nor writes it; agent registration is checked only by join_as_agent. -/
theorem C1_agent_send_unchecked (st : ServerState) (ags : List (String × AgentInfo))
    (sock cid content : String) (mt : Option String) (an mid ts : String) (now : Nat)
    (chat : Chat) (hc : getKey? cid st.activeChats = some chat) :
    ((handleMessageFromAgent st sock cid content mt an mid ts now).outcome = .ok ∧
      msgsOf (handleMessageFromAgent st sock cid content mt an mid ts now).state cid =
        chat.messages ++ [mkAgentMessage mid content an mt ts] ∧
      Output.newMessage cid (mkAgentMessage mid content an mt ts) ∈
        (handleMessageFromAgent st sock cid content mt an mid ts now).outputs) ∧
    ((handleMessageFromAgent { st with connectedAgents := ags } sock cid content mt an mid ts now).outputs =
        (handleMessageFromAgent st sock cid content mt an mid ts now).outputs ∧
      (handleMessageFromAgent { st with connectedAgents := ags } sock cid content mt an mid ts now).outcome =
        (handleMessageFromAgent st sock cid content mt an mid ts now).outcome ∧
      (handleMessageFromAgent { st with connectedAgents := ags } sock cid content mt an mid ts now).state.activeChats =
        (handleMessageFromAgent st sock cid content mt an mid ts now).state.activeChats ∧
      (handleMessageFromAgent { st with connectedAgents := ags } sock cid content mt an mid ts now).state.connectedAgents =
        ags) := by
  have hc2 : getKey? cid ({ st with connectedAgents := ags } : ServerState).activeChats =
      some chat := hc
  refine ⟨⟨?_, handleMessageFromAgent_msgs st sock cid content mt an mid ts now chat hc, ?_⟩,
    ?_, ?_, ?_, ?_⟩ <;>
    unfold handleMessageFromAgent <;>
    rw [hc] <;>
    try rw [hc2]
  all_goals
    by_cases h : agentTruthy chat.agent <;>
      simp [h, updateChatActivity_activeChats, updateChatActivity_connectedAgents]

/-- Witness for C1 at the concrete session, swapping in a non-empty agent
registry to exhibit independence. -/
theorem C1_agent_send_unchecked_witness :
    getKey? "chat1" (exState [] none).activeChats = some (exChat [] none) ∧
    (((handleMessageFromAgent (exState [] none) "s9" "chat1" "pwnd" none "Mallory" "m7" "t7" 5).outcome = .ok ∧
      msgsOf (handleMessageFromAgent (exState [] none) "s9" "chat1" "pwnd" none "Mallory" "m7" "t7" 5).state "chat1" =
        (exChat [] none).messages ++ [mkAgentMessage "m7" "pwnd" "Mallory" none "t7"] ∧
      Output.newMessage "chat1" (mkAgentMessage "m7" "pwnd" "Mallory" none "t7") ∈
        (handleMessageFromAgent (exState [] none) "s9" "chat1" "pwnd" none "Mallory" "m7" "t7" 5).outputs) ∧
    ((handleMessageFromAgent { exState [] none with connectedAgents := [] } "s9" "chat1" "pwnd" none "Mallory" "m7" "t7" 5).outputs =
        (handleMessageFromAgent (exState [] none) "s9" "chat1" "pwnd" none "Mallory" "m7" "t7" 5).outputs ∧
      (handleMessageFromAgent { exState [] none with connectedAgents := [] } "s9" "chat1" "pwnd" none "Mallory" "m7" "t7" 5).outcome =
        (handleMessageFromAgent (exState [] none) "s9" "chat1" "pwnd" none "Mallory" "m7" "t7" 5).outcome ∧
      (handleMessageFromAgent { exState [] none with connectedAgents := [] } "s9" "chat1" "pwnd" none "Mallory" "m7" "t7" 5).state.activeChats =
        (handleMessageFromAgent (exState [] none) "s9" "chat1" "pwnd" none "Mallory" "m7" "t7" 5).state.activeChats ∧
      (handleMessageFromAgent { exState [] none with connectedAgents := [] } "s9" "chat1" "pwnd" none "Mallory" "m7" "t7" 5).state.connectedAgents =
        [])) :=
  ⟨by decide,
   C1_agent_send_unchecked (exState [] none) [] "s9" "chat1" "pwnd" none "Mallory"
     "m7" "t7" 5 (exChat [] none) (by decide)⟩

/-- C2 counterexample: a save is triggered on the session holding [exM1];
the remote attempt fails and, during the awaited fallback path, the
customer message "are you there" is appended; the fallback file then
serializes the live message array, so the record of THAT save contains a
message appended after the save was triggered — it is not the trigger-time
sequence. -/
theorem C2_fallback_live_messages_cx :
    c2TriggerChat.messages = [exM1] ∧
    (fallbackRecordLive c2TriggerChat (msgsOf c2DuringSave.state "chat1")).messages =
      [exM1, mkUserMessage "m2x" "are you there" none "Alice" "t2x"] ∧
    (fallbackRecordLive c2TriggerChat (msgsOf c2DuringSave.state "chat1")).messages ≠
      c2TriggerChat.messages := by
  decide

/-- C2 amended: the remote write's body carries exactly the trigger-time
message sequence (it is serialized synchronously before any suspension),
and the fallback record keeps all trigger-time scalar fields; but the
fallback record's message list is the session's live list at the moment of
the fallback write, so a message appended during the save window appears
in it (trigger-time sequence plus exactly the appended messages). -/
theorem C2_snapshot_refined (st : ServerState) (sock cid content : String)
    (sender : Option String) (mid ts : String) (now : Nat) (chat : Chat)
    (hc : getKey? cid st.activeChats = some chat) :
    (buildChatData chat).messages = chat.messages ∧
    (fallbackRecordLive chat
        (msgsOf (handleUserMessage st sock cid content sender mid ts now).state cid)).messages =
      chat.messages ++ [mkUserMessage mid content sender chat.userName ts] ∧
    (fallbackRecordLive chat
        (msgsOf (handleUserMessage st sock cid content sender mid ts now).state cid)).status =
      (buildChatData chat).status ∧
    (fallbackRecordLive chat
        (msgsOf (handleUserMessage st sock cid content sender mid ts now).state cid)).last_message_at =
      (buildChatData chat).last_message_at ∧
    (fallbackRecordLive chat
        (msgsOf (handleUserMessage st sock cid content sender mid ts now).state cid)).agent_id =
      (buildChatData chat).agent_id :=
  ⟨rfl, by
    show (msgsOf (handleUserMessage st sock cid content sender mid ts now).state cid) = _
    exact handleUserMessage_msgs st sock cid content sender mid ts now chat hc,
   rfl, rfl, rfl⟩

/-- Witness for C2 amended at the concrete during-save append. -/
theorem C2_snapshot_refined_witness :
    getKey? "chat1" (exState [exM1] (some "Bob")).activeChats = some c2TriggerChat ∧
    ((buildChatData c2TriggerChat).messages = c2TriggerChat.messages ∧
      (fallbackRecordLive c2TriggerChat (msgsOf c2DuringSave.state "chat1")).messages =
        c2TriggerChat.messages ++ [mkUserMessage "m2x" "are you there" none "Alice" "t2x"] ∧
      (fallbackRecordLive c2TriggerChat (msgsOf c2DuringSave.state "chat1")).status =
        (buildChatData c2TriggerChat).status ∧
      (fallbackRecordLive c2TriggerChat (msgsOf c2DuringSave.state "chat1")).last_message_at =
        (buildChatData c2TriggerChat).last_message_at ∧
      (fallbackRecordLive c2TriggerChat (msgsOf c2DuringSave.state "chat1")).agent_id =
        (buildChatData c2TriggerChat).agent_id) :=
  ⟨by decide,
   C2_snapshot_refined (exState [exM1] (some "Bob")) "s1" "chat1" "are you there"
     none "m2x" "t2x" 7 c2TriggerChat (by decide)⟩

theorem sweepSaves_iff (now : Nat) (chat : Chat) (l : Option Nat) :
    sweepSaves now chat l = true ↔
      (agentTruthy chat.agent = true ∧ chat.messages ≠ [] ∧
        (AUTOSAVE_INTERVAL : Int) < (now : Int) - ((l.getD 0 : Nat) : Int)) := by
  unfold sweepSaves
  cases hA : agentTruthy chat.agent with
  | false => simp [hA]
  | true =>
    simp [hA, Bool.and_eq_true, decide_eq_true_eq, List.length_pos]

/-- C3 counterexample: an agent-assigned session with one message whose
last recorded activity is 3 minutes old — strictly more than the 2-minute
INACTIVITY_SAVE_DELAY — is NOT persisted by the periodic sweep, because
the sweep compares inactivity against AUTOSAVE_INTERVAL (5 minutes), not
against the per-session timer's threshold. -/
theorem C3_sweep_wrong_threshold_cx :
    agentTruthy c3Chat.agent = true ∧
    c3Chat.messages ≠ [] ∧
    (INACTIVITY_SAVE_DELAY : Int) <
      (c3Now : Int) - (((getKey? "chat1" [("chat1", 0)]).getD 0 : Nat) : Int) ∧
    "chat1" ∉ (sweepLoop c3Now [("chat1", c3Chat)] [("chat1", 0)]).2 := by
  decide

/-- C3 amended: on every run of the periodic sweep, an agent-assigned
session with at least one message is persisted — and its last-activity
stamped to now — if and only if the time since its last recorded activity
(0 when never recorded) exceeds AUTOSAVE_INTERVAL, the sweep's own
5-minute interval, which is larger than the 2-minute inactivity delay of
the per-session timer. -/
theorem C3_sweep_save_iff (now : Nat) (st : ServerState) (cid : String) (chat : Chat)
    (hnd : (st.activeChats.map Prod.fst).Nodup)
    (hmem : (cid, chat) ∈ st.activeChats) :
    (cid ∈ (periodicSweep now st).2 ↔
      (agentTruthy chat.agent = true ∧ chat.messages ≠ [] ∧
        (AUTOSAVE_INTERVAL : Int) <
          (now : Int) - (((getKey? cid st.chatLastActivity).getD 0 : Nat) : Int))) ∧
    (cid ∈ (periodicSweep now st).2 →
      getKey? cid (periodicSweep now st).1.chatLastActivity = some now) := by
  constructor
  · rw [show (periodicSweep now st).2 =
        (sweepLoop now st.activeChats st.chatLastActivity).2 from rfl]
    rw [sweepLoop_saved_iff now st.activeChats st.chatLastActivity hnd cid chat hmem]
    exact sweepSaves_iff now chat (getKey? cid st.chatLastActivity)
  · intro h
    exact sweepLoop_stamped now st.activeChats st.chatLastActivity hnd cid h

/-- Witness for C3 amended: at the 6-minute mark the concrete session is
saved and its activity stamp set to now. -/
theorem C3_sweep_save_iff_witness :
    (((exState [exM1] (some "Bob")).activeChats.map Prod.fst).Nodup ∧
      ("chat1", exChat [exM1] (some "Bob")) ∈ (exState [exM1] (some "Bob")).activeChats) ∧
    (("chat1" ∈ (periodicSweep 360000 (exState [exM1] (some "Bob"))).2 ↔
      (agentTruthy (exChat [exM1] (some "Bob")).agent = true ∧
        (exChat [exM1] (some "Bob")).messages ≠ [] ∧
        (AUTOSAVE_INTERVAL : Int) <
          ((360000 : Nat) : Int) -
            (((getKey? "chat1" (exState [exM1] (some "Bob")).chatLastActivity).getD 0 : Nat) : Int))) ∧
    ("chat1" ∈ (periodicSweep 360000 (exState [exM1] (some "Bob"))).2 →
      getKey? "chat1" (periodicSweep 360000 (exState [exM1] (some "Bob"))).1.chatLastActivity =
        some 360000)) :=
  ⟨⟨by decide, by decide⟩,
   C3_sweep_save_iff 360000 (exState [exM1] (some "Bob")) "chat1"
     (exChat [exM1] (some "Bob")) (by decide) (by decide)⟩

/-- C4 counterexample: the connection "s1" has a recorded agent-eligible
origin, yet its user_message (continuing a customer chat) is processed
normally — message appended, ok branch, no authorization error emitted —
because only user_join_chat checks the origin. -/
theorem C4_agent_origin_can_continue_chat_cx :
    getKey? "s1" (exState [exM1] none).socketOrigins =
      some (some "https://fantickets.cloud/design/agent-panel") ∧
    isAgentOriginOf defaultAgentOrigins (some "https://fantickets.cloud/design/agent-panel") =
      true ∧
    (handleUserMessage (exState [exM1] none) "s1" "chat1" "hola" none "m5" "t5" 3).outcome =
      .ok ∧
    msgsOf (handleUserMessage (exState [exM1] none) "s1" "chat1" "hola" none "m5" "t5" 3).state
        "chat1" =
      [exM1, mkUserMessage "m5" "hola" none "Alice" "t5"] ∧
    (handleUserMessage (exState [exM1] none) "s1" "chat1" "hola" none "m5" "t5" 3).outputs =
      [.newMessage "chat1" (mkUserMessage "m5" "hola" none "Alice" "t5")] := by
  decide

/-- C4 amended: a connection whose recorded origin is agent-eligible is
refused with an authorization error, and no state is mutated, when it
attempts to START a customer chat (user_join_chat); but continuing a chat
(user_message) involves no origin check and is processed normally on an
existing session. -/
theorem C4_agent_origin_gate (st : ServerState) (sock : String) (origin : Option String)
    (ao : List String) (uid uname : String) (ue up addr : Option String)
    (fcid cAt cid content mid ts : String) (sender : Option String) (now : Nat)
    (chat : Chat)
    (h : isAgentOriginOf ao origin = true)
    (hc : getKey? cid st.activeChats = some chat) :
    ((handleUserJoinChat st sock origin ao uid uname ue up addr fcid cAt).state = st ∧
      (handleUserJoinChat st sock origin ao uid uname ue up addr fcid cAt).outcome =
        .unauthorized ∧
      (handleUserJoinChat st sock origin ao uid uname ue up addr fcid cAt).outputs =
        [.errorMsg sock
          "Agent origins cannot create user chats. Please use join_as_agent instead."]) ∧
    ((handleUserMessage st sock cid content sender mid ts now).outcome = .ok ∧
      msgsOf (handleUserMessage st sock cid content sender mid ts now).state cid =
        chat.messages ++ [mkUserMessage mid content sender chat.userName ts]) := by
  constructor
  · unfold handleUserJoinChat
    rw [if_pos h]
    exact ⟨rfl, rfl, rfl⟩
  · constructor
    · unfold handleUserMessage
      rw [hc]
    · exact handleUserMessage_msgs st sock cid content sender mid ts now chat hc

/-- Witness for C4 amended at the concrete agent-eligible origin. -/
theorem C4_agent_origin_gate_witness :
    (isAgentOriginOf defaultAgentOrigins (some "https://fantickets.cloud/design/agent-panel") =
        true ∧
      getKey? "chat1" (exState [exM1] none).activeChats = some (exChat [exM1] none)) ∧
    (((handleUserJoinChat (exState [exM1] none) "s1"
          (some "https://fantickets.cloud/design/agent-panel") defaultAgentOrigins
          "u1" "Alice" none none none "chat2" "t9").state = exState [exM1] none ∧
      (handleUserJoinChat (exState [exM1] none) "s1"
          (some "https://fantickets.cloud/design/agent-panel") defaultAgentOrigins
          "u1" "Alice" none none none "chat2" "t9").outcome = .unauthorized ∧
      (handleUserJoinChat (exState [exM1] none) "s1"
          (some "https://fantickets.cloud/design/agent-panel") defaultAgentOrigins
          "u1" "Alice" none none none "chat2" "t9").outputs =
        [.errorMsg "s1"
          "Agent origins cannot create user chats. Please use join_as_agent instead."]) ∧
    ((handleUserMessage (exState [exM1] none) "s1" "chat1" "hola" none "m5" "t5" 3).outcome =
        .ok ∧
      msgsOf (handleUserMessage (exState [exM1] none) "s1" "chat1" "hola" none "m5" "t5" 3).state
          "chat1" =
        (exChat [exM1] none).messages ++ [mkUserMessage "m5" "hola" none (exChat [exM1] none).userName "t5"])) :=
  ⟨⟨by decide, by decide⟩,
   C4_agent_origin_gate (exState [exM1] none) "s1"
     (some "https://fantickets.cloud/design/agent-panel") defaultAgentOrigins
     "u1" "Alice" none none none "chat2" "t9" "chat1" "hola" "m5" "t5" none 3
     (exChat [exM1] none) (by decide) (by decide)⟩

/-- C5 counterexample: a first agent send with the empty agent name sets
the agent field to "" (and emits agent_joined), but "" is falsy in JS, so
a second agent send under the name "Bob" CHANGES the agent field and
re-emits agent_joined — refuting the claim that every later agent send
leaves the field unchanged and emits no further notification. -/
theorem C5_reassignment_cx :
    agentOf c5Send1.state "chat1" = some "" ∧
    Output.agentJoined "chat1" "" ∈ c5Send1.outputs ∧
    agentOf c5Send2.state "chat1" = some "Bob" ∧
    agentOf c5Send2.state "chat1" ≠ agentOf c5Send1.state "chat1" ∧
    Output.agentJoined "chat1" "Bob" ∈ c5Send2.outputs := by
  decide

/-- C5 amended: assignment is idempotent with respect to JS truthiness: an
agent send to a session whose agent field is falsy (unset or empty) stores
the sender's name and emits agent_joined exactly once in that multicast;
an agent send to a session whose agent field holds a non-empty name leaves
the field unchanged and emits no agent_joined at all. -/
theorem C5_assignment_idempotent (st : ServerState) (sock cid content : String)
    (mt : Option String) (an mid ts : String) (now : Nat) (chat : Chat)
    (hc : getKey? cid st.activeChats = some chat) :
    (agentTruthy chat.agent = false →
      agentOf (handleMessageFromAgent st sock cid content mt an mid ts now).state cid =
          some an ∧
        (handleMessageFromAgent st sock cid content mt an mid ts now).outputs.count
          (.agentJoined cid an) = 1) ∧
    (agentTruthy chat.agent = true →
      agentOf (handleMessageFromAgent st sock cid content mt an mid ts now).state cid =
          chat.agent ∧
        ∀ a, Output.agentJoined cid a ∉
          (handleMessageFromAgent st sock cid content mt an mid ts now).outputs) := by
  constructor
  · intro h
    unfold handleMessageFromAgent
    rw [hc]
    simp [h, agentOf, updateChatActivity_activeChats, getKey?_setKey_self, List.count_cons]
  · intro h
    unfold handleMessageFromAgent
    rw [hc]
    simp [h, agentOf, updateChatActivity_activeChats, getKey?_setKey_self]

/-- Witness for C5 amended: first assignment by "Bob" on the unassigned
session, then idempotence on the session already assigned to "Bob". -/
theorem C5_assignment_idempotent_witness :
    (getKey? "chat1" (exState [] none).activeChats = some (exChat [] none) ∧
      agentTruthy (exChat [] none).agent = false ∧
      agentOf (handleMessageFromAgent (exState [] none) "sB" "chat1" "yo" none "Bob" "mB" "tB" 2).state
          "chat1" = some "Bob" ∧
      (handleMessageFromAgent (exState [] none) "sB" "chat1" "yo" none "Bob" "mB" "tB" 2).outputs.count
        (.agentJoined "chat1" "Bob") = 1) ∧
    (getKey? "chat1" (exState [exM1] (some "Bob")).activeChats =
        some (exChat [exM1] (some "Bob")) ∧
      agentTruthy (exChat [exM1] (some "Bob")).agent = true ∧
      agentOf (handleMessageFromAgent (exState [exM1] (some "Bob")) "sB" "chat1" "again" none "Eve" "mC" "tC" 3).state
          "chat1" = (exChat [exM1] (some "Bob")).agent ∧
      ∀ a, Output.agentJoined "chat1" a ∉
        (handleMessageFromAgent (exState [exM1] (some "Bob")) "sB" "chat1" "again" none "Eve" "mC" "tC" 3).outputs) := by
  refine ⟨⟨by decide, by decide, ?_, ?_⟩, ⟨by decide, by decide, ?_, ?_⟩⟩
  · exact ((C5_assignment_idempotent (exState [] none) "sB" "chat1" "yo" none "Bob"
      "mB" "tB" 2 (exChat [] none) (by decide)).1 (by decide)).1
  · exact ((C5_assignment_idempotent (exState [] none) "sB" "chat1" "yo" none "Bob"
      "mB" "tB" 2 (exChat [] none) (by decide)).1 (by decide)).2
  · exact ((C5_assignment_idempotent (exState [exM1] (some "Bob")) "sB" "chat1" "again"
      none "Eve" "mC" "tC" 3 (exChat [exM1] (some "Bob")) (by decide)).2 (by decide)).1
  · exact ((C5_assignment_idempotent (exState [exM1] (some "Bob")) "sB" "chat1" "again"
      none "Eve" "mC" "tC" 3 (exChat [exM1] (some "Bob")) (by decide)).2 (by decide)).2

end SocketApp
